import Mathlib

/-!
Verification development for the `PositionExecutor` order-lifecycle controller
(`hummingbot/strategy/smart_components/position_executor/position_executor.py`).

The executor is embedded shallowly: its mutable object state becomes the
structure `PositionExecutor`, each Python method becomes a Lean function from
the executor state (plus the environment inputs the method reads: current
timestamp, mid price, freshly allocated order ids, fetched order records) to a
`StepResult` holding the new state, the side-effecting requests issued to the
strategy (`place_order` / `cancel` calls, recorded as `Request`s), and whether
the method raised (an `AttributeError` from dereferencing an absent order
record, or a `Decimal` division by zero). Prices, amounts and timestamps are
modelled as rationals (the Python code uses `Decimal` / `float`).
-/

/-- Modelled from the spec: position side enum (`PositionSide` from
`hummingbot.core.data_type.common`, not under `src/`); the spec uses only
LONG and SHORT. -/
inductive PositionSide where
  | LONG
  | SHORT
deriving DecidableEq

/-- Modelled from the spec: order type enum (`OrderType`, not under `src/`);
the spec describes the entry order policy as limit or market, and the code
uses `OrderType.LIMIT` and `OrderType.MARKET` for exits. -/
inductive OrderType where
  | LIMIT
  | MARKET
deriving DecidableEq

/-- Modelled from the spec: position action enum (`PositionAction`, not under
`src/`); the code passes `PositionAction.OPEN` for the entry order and
`PositionAction.CLOSE` for exit orders. -/
inductive PositionAction where
  | OPEN
  | CLOSE
deriving DecidableEq

/-- Modelled from the spec: the executor status enum
(`PositionExecutorStatus` from `data_types.py`, not under `src/`); the eight
states are named throughout `position_executor.py` and the spec section 4.1. -/
inductive PositionExecutorStatus where
  | NOT_STARTED
  | ORDER_PLACED
  | ACTIVE_POSITION
  | CLOSE_PLACED
  | CLOSED_BY_TAKE_PROFIT
  | CLOSED_BY_STOP_LOSS
  | CLOSED_BY_TIME_LIMIT
  | CANCELED_BY_TIME_LIMIT
deriving DecidableEq

/-- Modelled from the spec: the state carried by a venue order record
(`InFlightOrder.current_state`, not under `src/`); the spec says the record
"carries state (pending/filled/cancelled/failed)" and the code reads the
predicates `is_cancelled`, `is_pending_cancel_confirmation`, `is_failure`. -/
inductive OrderState where
  | PENDING_CREATE
  | OPEN
  | PARTIALLY_FILLED
  | FILLED
  | PENDING_CANCEL
  | CANCELED
  | FAILED
deriving DecidableEq

/-- Modelled from the spec: the venue's authoritative order record
(`InFlightOrder`, not under `src/`): state plus `average_executed_price` and
`executed_amount_base`, the only fields `position_executor.py` reads. -/
structure InFlightOrder where
  current_state : OrderState
  average_executed_price : ℚ
  executed_amount_base : ℚ
deriving DecidableEq

/-- Predicate `InFlightOrder.is_cancelled` read by `clean_executor`. -/
def InFlightOrder.is_cancelled (o : InFlightOrder) : Bool :=
  o.current_state = OrderState.CANCELED

/-- Predicate `InFlightOrder.is_pending_cancel_confirmation` read by
`clean_executor`. -/
def InFlightOrder.is_pending_cancel_confirmation (o : InFlightOrder) : Bool :=
  o.current_state = OrderState.PENDING_CANCEL

/-- Predicate `InFlightOrder.is_failure` read by `clean_executor`. -/
def InFlightOrder.is_failure (o : InFlightOrder) : Bool :=
  o.current_state = OrderState.FAILED

/-- Predicate `InFlightOrder.is_filled`: the order is completely filled. -/
def InFlightOrder.is_filled (o : InFlightOrder) : Bool :=
  o.current_state = OrderState.FILLED

/-- Modelled from the spec: `TrackedOrder` from `data_types.py` (not under
`src/`): a nullable locally-issued order id plus a nullable reference to the
venue order record. -/
structure TrackedOrder where
  order_id : Option String
  order : Option InFlightOrder
deriving DecidableEq

/-- Fresh `TrackedOrder()` as constructed in `PositionExecutor.__init__`. -/
def TrackedOrder.empty : TrackedOrder := { order_id := none, order := none }

/-- Modelled from the spec: `PositionConfig` from `data_types.py` (not under
`src/`): the immutable parameters of the desired position, exactly the fields
`position_executor.py` reads. -/
structure PositionConfig where
  exchange : String
  trading_pair : String
  side : PositionSide
  amount : ℚ
  entry_price : Option ℚ
  order_type : OrderType
  stop_loss : ℚ
  take_profit : ℚ
  time_limit : ℚ
  timestamp : ℚ
deriving DecidableEq

/-- The mutable state of a `PositionExecutor`: status, the four tracked order
slots, and the close timestamp, as initialised in `__init__`. -/
structure PositionExecutor where
  position_config : PositionConfig
  status : PositionExecutorStatus
  open_order : TrackedOrder
  take_profit_order : TrackedOrder
  time_limit_order : TrackedOrder
  stop_loss_order : TrackedOrder
  close_timestamp : Option ℚ
deriving DecidableEq

/-- `PositionExecutor.__init__`: status `NOT_STARTED`, four empty tracked
orders, no close timestamp. -/
def mkExecutor (cfg : PositionConfig) : PositionExecutor :=
  { position_config := cfg
    status := PositionExecutorStatus.NOT_STARTED
    open_order := TrackedOrder.empty
    take_profit_order := TrackedOrder.empty
    time_limit_order := TrackedOrder.empty
    stop_loss_order := TrackedOrder.empty
    close_timestamp := none }

/-- The four order slots of an executor; `place_order` requests are tagged
with the slot whose control method issued them. -/
inductive Slot where
  | entrySlot
  | takeProfitSlot
  | stopLossSlot
  | timeLimitSlot
deriving DecidableEq

/-- A side-effecting request issued to the strategy: `place_order` (with the
arguments the Python call sites pass) or `cancel`. `cancel` carries the
nullable order id the code passes. -/
inductive Request where
  | placeOrder (slot : Slot) (trading_pair : String) (amount : ℚ) (price : ℚ)
      (order_type : OrderType) (position_action : PositionAction)
      (position_side : PositionSide)
  | cancelOrder (trading_pair : String) (order_id : Option String)
deriving DecidableEq

/-- Whether an action is a placement request for the given slot. -/
def Request.isPlaceFor (a : Request) (s : Slot) : Bool :=
  match a with
  | Request.placeOrder s2 _ _ _ _ _ _ => s2 = s
  | Request.cancelOrder _ _ => false

/-- Result of running one executor method: the new executor state, the
requests issued to the strategy, and whether the method raised an exception
(in which case `exec` and `actions` reflect the mutations and requests that
happened before the raise). -/
structure StepResult where
  exec : PositionExecutor
  actions : List Request
  errored : Bool
deriving DecidableEq

/-- Environment inputs read during one control tick: the strategy's
`current_timestamp`, the connector's mid price, and the order id the strategy
returns for a placement from a given slot. -/
structure TickEnv where
  current_timestamp : ℚ
  mid_price : ℚ
  next_order_id : Slot → String

/-- Python truthiness of a nullable string, as in the guards
`if not self.open_order.order_id:`: `None` and the empty string are falsy. -/
def strTruthy : Option String → Bool
  | none => false
  | some s => decide (s ≠ "")

/-- Property `end_time`: `self.timestamp + self.time_limit`. -/
def end_time (e : PositionExecutor) : ℚ :=
  e.position_config.timestamp + e.position_config.time_limit

/-- The opposite side expression used at every exit-order call site:
`PositionSide.LONG if self.side == PositionSide.SHORT else PositionSide.SHORT`. -/
def opposite_side (s : PositionSide) : PositionSide :=
  if s = PositionSide.SHORT then PositionSide.LONG else PositionSide.SHORT

/-- Property `is_closed`: status is one of the three `CLOSED_BY_*` states or
`CANCELED_BY_TIME_LIMIT`. -/
def is_closed (e : PositionExecutor) : Bool :=
  e.status ∈ [PositionExecutorStatus.CLOSED_BY_TIME_LIMIT,
              PositionExecutorStatus.CLOSED_BY_STOP_LOSS,
              PositionExecutorStatus.CLOSED_BY_TAKE_PROFIT,
              PositionExecutorStatus.CANCELED_BY_TIME_LIMIT]

/-- Property `entry_price`: while status is in `NOT_STARTED`, `ORDER_PLACED`
or `CANCELED_BY_TIME_LIMIT`, the configured hint if truthy (a `Decimal` zero
or `None` hint falls back to the connector's mid price); otherwise the entry
order record's `average_executed_price`, raising if that record is absent. -/
def entry_price (e : PositionExecutor) (mid : ℚ) : Except Unit ℚ :=
  if e.status ∈ [PositionExecutorStatus.NOT_STARTED,
                 PositionExecutorStatus.ORDER_PLACED,
                 PositionExecutorStatus.CANCELED_BY_TIME_LIMIT] then
    Except.ok (match e.position_config.entry_price with
      | none => mid
      | some p => if p = 0 then mid else p)
  else
    match e.open_order.order with
    | some o => Except.ok o.average_executed_price
    | none => Except.error ()

/-- Property `close_price`: the `average_executed_price` of the exit order
slot matching the terminal status (raising if that record is absent), `None`
in every other status. -/
def close_price (e : PositionExecutor) : Except Unit (Option ℚ) :=
  if e.status = PositionExecutorStatus.CLOSED_BY_STOP_LOSS then
    match e.stop_loss_order.order with
    | some o => Except.ok (some o.average_executed_price)
    | none => Except.error ()
  else if e.status = PositionExecutorStatus.CLOSED_BY_TAKE_PROFIT then
    match e.take_profit_order.order with
    | some o => Except.ok (some o.average_executed_price)
    | none => Except.error ()
  else if e.status = PositionExecutorStatus.CLOSED_BY_TIME_LIMIT then
    match e.time_limit_order.order with
    | some o => Except.ok (some o.average_executed_price)
    | none => Except.error ()
  else
    Except.ok none

/-- Property `pnl`: in a `CLOSED_BY_*` status, `(close − entry)/entry` for
LONG and `(entry − close)/entry` for SHORT; in `ACTIVE_POSITION` the same
formulas with the current mid price in place of the close price; otherwise 0.
Raises where the Python property would (absent order record, division by a
zero entry price). -/
def pnl (e : PositionExecutor) (mid : ℚ) : Except Unit ℚ :=
  if e.status ∈ [PositionExecutorStatus.CLOSED_BY_TIME_LIMIT,
                 PositionExecutorStatus.CLOSED_BY_STOP_LOSS,
                 PositionExecutorStatus.CLOSED_BY_TAKE_PROFIT] then
    match close_price e, entry_price e mid with
    | Except.ok (some cp), Except.ok ep =>
      if ep = 0 then Except.error ()
      else if e.position_config.side = PositionSide.LONG then
        Except.ok ((cp - ep) / ep)
      else
        Except.ok ((ep - cp) / ep)
    | Except.ok none, _ => Except.error ()
    | Except.error u, _ => Except.error u
    | _, Except.error u => Except.error u
  else if e.status = PositionExecutorStatus.ACTIVE_POSITION then
    match entry_price e mid with
    | Except.ok ep =>
      if ep = 0 then Except.error ()
      else if e.position_config.side = PositionSide.LONG then
        Except.ok ((mid - ep) / ep)
      else
        Except.ok ((ep - mid) / ep)
    | Except.error u => Except.error u
  else
    Except.ok 0

/-- Property `stop_loss_price`: `entry_price * (1 - stop_loss)` for LONG,
`entry_price * (1 + stop_loss)` for SHORT. -/
def stop_loss_price (e : PositionExecutor) (mid : ℚ) : Except Unit ℚ :=
  match entry_price e mid with
  | Except.error u => Except.error u
  | Except.ok ep =>
    Except.ok (if e.position_config.side = PositionSide.LONG then
        ep * (1 - e.position_config.stop_loss)
      else
        ep * (1 + e.position_config.stop_loss))

/-- Property `take_profit_price`: `entry_price * (1 + take_profit)` for LONG,
`entry_price * (1 - take_profit)` for SHORT. -/
def take_profit_price (e : PositionExecutor) (mid : ℚ) : Except Unit ℚ :=
  match entry_price e mid with
  | Except.error u => Except.error u
  | Except.ok ep =>
    Except.ok (if e.position_config.side = PositionSide.LONG then
        ep * (1 + e.position_config.take_profit)
      else
        ep * (1 - e.position_config.take_profit))

/-- Method `remove_take_profit`: issue `self._strategy.cancel` for the
take-profit slot's order id (passed as-is, possibly `None`). -/
def remove_take_profit (e : PositionExecutor) : List Request :=
  [Request.cancelOrder e.position_config.trading_pair e.take_profit_order.order_id]

/-- Method `clean_executor`: in `CLOSED_BY_TIME_LIMIT` or
`CLOSED_BY_STOP_LOSS`, skip when the take-profit record is bound and
cancelled / pending-cancel / failed; otherwise log the record's state (an
`AttributeError` when the record is absent, since `None and (...)` is falsy
and the log line dereferences `self.take_profit_order.order.current_state`)
and issue the take-profit cancellation. -/
def clean_executor (e : PositionExecutor) : StepResult :=
  if e.status ∈ [PositionExecutorStatus.CLOSED_BY_TIME_LIMIT,
                 PositionExecutorStatus.CLOSED_BY_STOP_LOSS] then
    match e.take_profit_order.order with
    | some o =>
      if o.is_cancelled || o.is_pending_cancel_confirmation || o.is_failure then
        { exec := e, actions := [], errored := false }
      else
        { exec := e, actions := remove_take_profit e, errored := false }
    | none =>
      { exec := e, actions := [], errored := true }
  else
    { exec := e, actions := [], errored := false }

/-- Method `control_open_order`: when the entry slot has no truthy order id,
place the entry order (amount, `entry_price`, configured order type, OPEN,
configured side) and record the returned id. -/
def control_open_order (e : PositionExecutor) (env : TickEnv) : StepResult :=
  if strTruthy e.open_order.order_id = true then
    { exec := e, actions := [], errored := false }
  else
    match entry_price e env.mid_price with
    | Except.error _ => { exec := e, actions := [], errored := true }
    | Except.ok p =>
      { exec := { e with open_order :=
                  { e.open_order with order_id := some (env.next_order_id Slot.entrySlot) } }
        actions := [Request.placeOrder Slot.entrySlot e.position_config.trading_pair
                      e.position_config.amount p e.position_config.order_type
                      PositionAction.OPEN e.position_config.side]
        errored := false }

/-- Method `control_cancel_order_by_time_limit`: issue a cancellation of the
entry order when `self.end_time >= self._strategy.current_timestamp` (the
comparison exactly as written in the source). -/
def control_cancel_order_by_time_limit (e : PositionExecutor) (env : TickEnv) :
    StepResult :=
  if env.current_timestamp ≤ end_time e then
    { exec := e
      actions := [Request.cancelOrder e.position_config.trading_pair e.open_order.order_id]
      errored := false }
  else
    { exec := e, actions := [], errored := false }

/-- Method `control_take_profit`: when the take-profit slot has no truthy
order id, place a limit order for the entry order's executed base amount at
`take_profit_price`, CLOSE, opposite side, and record the returned id. Raises
when the entry order record is absent (the amount argument dereferences it). -/
def control_take_profit (e : PositionExecutor) (env : TickEnv) : StepResult :=
  if strTruthy e.take_profit_order.order_id = true then
    { exec := e, actions := [], errored := false }
  else
    match e.open_order.order, take_profit_price e env.mid_price with
    | some o, Except.ok tpp =>
      { exec := { e with take_profit_order :=
                  { e.take_profit_order with
                    order_id := some (env.next_order_id Slot.takeProfitSlot) } }
        actions := [Request.placeOrder Slot.takeProfitSlot e.position_config.trading_pair
                      o.executed_amount_base tpp OrderType.LIMIT
                      PositionAction.CLOSE (opposite_side e.position_config.side)]
        errored := false }
    | _, _ => { exec := e, actions := [], errored := true }

/-- Method `control_stop_loss`: compute the trigger from the mid price and
`stop_loss_price` (≤ for LONG, ≥ for SHORT; raising when `stop_loss_price`
does); when triggered and the stop-loss slot has no truthy order id, place a
market order for the entry order's executed base amount at the mid price,
CLOSE, opposite side, record the id and set status `CLOSE_PLACED`. -/
def control_stop_loss (e : PositionExecutor) (env : TickEnv) : StepResult :=
  match stop_loss_price e env.mid_price with
  | Except.error _ => { exec := e, actions := [], errored := true }
  | Except.ok slp =>
    if (e.position_config.side = PositionSide.LONG ∧ env.mid_price ≤ slp) ∨
       (e.position_config.side = PositionSide.SHORT ∧ slp ≤ env.mid_price) then
      if strTruthy e.stop_loss_order.order_id = true then
        { exec := e, actions := [], errored := false }
      else
        match e.open_order.order with
        | some o =>
          { exec := { e with
              stop_loss_order := { e.stop_loss_order with
                order_id := some (env.next_order_id Slot.stopLossSlot) }
              status := PositionExecutorStatus.CLOSE_PLACED }
            actions := [Request.placeOrder Slot.stopLossSlot e.position_config.trading_pair
                          o.executed_amount_base env.mid_price OrderType.MARKET
                          PositionAction.CLOSE (opposite_side e.position_config.side)]
            errored := false }
        | none => { exec := e, actions := [], errored := true }
    else
      { exec := e, actions := [], errored := false }

/-- Method `control_time_limit`: when `self.end_time < current_timestamp` and
the time-limit slot has no truthy order id, place a market order for the entry
order's executed base amount at the mid price, CLOSE, opposite side, record
the id and set status `CLOSE_PLACED`. -/
def control_time_limit (e : PositionExecutor) (env : TickEnv) : StepResult :=
  if end_time e < env.current_timestamp then
    if strTruthy e.time_limit_order.order_id = true then
      { exec := e, actions := [], errored := false }
    else
      match e.open_order.order with
      | some o =>
        { exec := { e with
            time_limit_order := { e.time_limit_order with
              order_id := some (env.next_order_id Slot.timeLimitSlot) }
            status := PositionExecutorStatus.CLOSE_PLACED }
          actions := [Request.placeOrder Slot.timeLimitSlot e.position_config.trading_pair
                        o.executed_amount_base env.mid_price OrderType.MARKET
                        PositionAction.CLOSE (opposite_side e.position_config.side)]
          errored := false }
      | none => { exec := e, actions := [], errored := true }
  else
    { exec := e, actions := [], errored := false }

/-- Sequential composition of two executor methods: the second runs only when
the first did not raise, on the state the first produced; requests accumulate. -/
def andThen (r : StepResult) (f : PositionExecutor → StepResult) : StepResult :=
  if r.errored then r
  else
    let r2 := f r.exec
    { exec := r2.exec, actions := r.actions ++ r2.actions, errored := r2.errored }

/-- Method `control_position`: dispatch on status — `NOT_STARTED` places the
entry order, `ORDER_PLACED` runs the cancel-by-time-limit check,
`ACTIVE_POSITION` runs take-profit then stop-loss then time-limit control,
`CLOSE_PLACED` and every terminal status do nothing. -/
def control_position (e : PositionExecutor) (env : TickEnv) : StepResult :=
  match e.status with
  | PositionExecutorStatus.NOT_STARTED => control_open_order e env
  | PositionExecutorStatus.ORDER_PLACED => control_cancel_order_by_time_limit e env
  | PositionExecutorStatus.ACTIVE_POSITION =>
    andThen (control_take_profit e env) (fun e1 =>
      andThen (control_stop_loss e1 env) (fun e2 =>
        control_time_limit e2 env))
  | _ => { exec := e, actions := [], errored := false }

/-- A venue order lifecycle event as the handlers read it: order id and
timestamp. -/
structure OrderEvent where
  order_id : String
  timestamp : ℚ
deriving DecidableEq

/-- Handler `process_order_completed_event`: entry order completed sets
`ACTIVE_POSITION`; stop-loss / time-limit completion cancels the take-profit
order and enters the matching `CLOSED_BY_*` status with the event timestamp;
take-profit completion enters `CLOSED_BY_TAKE_PROFIT`. -/
def process_order_completed_event (e : PositionExecutor) (ev : OrderEvent) :
    StepResult :=
  if e.open_order.order_id = some ev.order_id then
    { exec := { e with status := PositionExecutorStatus.ACTIVE_POSITION }
      actions := [], errored := false }
  else if e.stop_loss_order.order_id = some ev.order_id then
    { exec := { e with status := PositionExecutorStatus.CLOSED_BY_STOP_LOSS
                       close_timestamp := some ev.timestamp }
      actions := remove_take_profit e, errored := false }
  else if e.time_limit_order.order_id = some ev.order_id then
    { exec := { e with status := PositionExecutorStatus.CLOSED_BY_TIME_LIMIT
                       close_timestamp := some ev.timestamp }
      actions := remove_take_profit e, errored := false }
  else if e.take_profit_order.order_id = some ev.order_id then
    { exec := { e with status := PositionExecutorStatus.CLOSED_BY_TAKE_PROFIT
                       close_timestamp := some ev.timestamp }
      actions := [], errored := false }
  else
    { exec := e, actions := [], errored := false }

/-- Handler `process_order_created_event`: bind the matching slot's order
record to the result of `get_order` (which may be absent); the entry order's
creation also sets `ORDER_PLACED`. -/
def process_order_created_event (e : PositionExecutor) (ev : OrderEvent)
    (fetched : Option InFlightOrder) : StepResult :=
  if e.open_order.order_id = some ev.order_id then
    { exec := { e with open_order := { e.open_order with order := fetched }
                       status := PositionExecutorStatus.ORDER_PLACED }
      actions := [], errored := false }
  else if e.take_profit_order.order_id = some ev.order_id then
    { exec := { e with take_profit_order := { e.take_profit_order with order := fetched } }
      actions := [], errored := false }
  else if e.stop_loss_order.order_id = some ev.order_id then
    { exec := { e with stop_loss_order := { e.stop_loss_order with order := fetched } }
      actions := [], errored := false }
  else if e.time_limit_order.order_id = some ev.order_id then
    { exec := { e with time_limit_order := { e.time_limit_order with order := fetched } }
      actions := [], errored := false }
  else
    { exec := e, actions := [], errored := false }

/-- Handler `process_order_canceled_event`: cancellation of the entry order
enters `CANCELED_BY_TIME_LIMIT` with the event timestamp. -/
def process_order_canceled_event (e : PositionExecutor) (ev : OrderEvent) :
    StepResult :=
  if e.open_order.order_id = some ev.order_id then
    { exec := { e with status := PositionExecutorStatus.CANCELED_BY_TIME_LIMIT
                       close_timestamp := some ev.timestamp }
      actions := [], errored := false }
  else
    { exec := e, actions := [], errored := false }

/-- Handler `process_order_filled_event`: a fill of the entry order sets
`ACTIVE_POSITION` unless the status already is `ACTIVE_POSITION` (then the
fill is only logged). -/
def process_order_filled_event (e : PositionExecutor) (ev : OrderEvent) :
    StepResult :=
  if e.open_order.order_id = some ev.order_id then
    if e.status = PositionExecutorStatus.ACTIVE_POSITION then
      { exec := e, actions := [], errored := false }
    else
      { exec := { e with status := PositionExecutorStatus.ACTIVE_POSITION }
        actions := [], errored := false }
  else
    { exec := e, actions := [], errored := false }

/-- One input consumed by the executor: a control tick from the Owner or a
venue event delivered by the Connector (a created event carries the record
`get_order` returns at that moment). -/
inductive Input where
  | tick (env : TickEnv)
  | completedEvent (ev : OrderEvent)
  | createdEvent (ev : OrderEvent) (fetched : Option InFlightOrder)
  | canceledEvent (ev : OrderEvent)
  | filledEvent (ev : OrderEvent)

/-- Dispatch one input to the method or handler that consumes it. -/
def step (e : PositionExecutor) : Input → StepResult
  | Input.tick env => control_position e env
  | Input.completedEvent ev => process_order_completed_event e ev
  | Input.createdEvent ev fetched => process_order_created_event e ev fetched
  | Input.canceledEvent ev => process_order_canceled_event e ev
  | Input.filledEvent ev => process_order_filled_event e ev

/-- Final executor state after consuming a list of inputs in order. -/
def runExec (e : PositionExecutor) : List Input → PositionExecutor
  | [] => e
  | i :: is => runExec (step e i).exec is

/-- The sequence of executor states visited while consuming a list of inputs
(one state per consumed input). -/
def runStates (e : PositionExecutor) : List Input → List PositionExecutor
  | [] => []
  | i :: is =>
    let e2 := (step e i).exec
    e2 :: runStates e2 is

/-- Number of times a status is entered along a status trace: transitions
from a different previous status into `target`. -/
def countEntries (target : PositionExecutorStatus) :
    PositionExecutorStatus → List PositionExecutorStatus → Nat
  | _, [] => 0
  | prev, x :: xs =>
    (if x = target ∧ prev ≠ target then 1 else 0) + countEntries target x xs

/-- Repeated control ticks: run `control_position` once per tick environment,
accumulating the issued requests (an exception in one tick does not stop the
Owner from ticking again). -/
def runTicks (e : PositionExecutor) : List TickEnv → PositionExecutor × List Request
  | [] => (e, [])
  | env :: rest =>
    let r := control_position e env
    let rest2 := runTicks r.exec rest
    (rest2.1, r.actions ++ rest2.2)

/-- The order id stored in a given slot. -/
def slotOrderId (e : PositionExecutor) : Slot → Option String
  | Slot.entrySlot => e.open_order.order_id
  | Slot.takeProfitSlot => e.take_profit_order.order_id
  | Slot.stopLossSlot => e.stop_loss_order.order_id
  | Slot.timeLimitSlot => e.time_limit_order.order_id

/-- The six market event kinds the executor subscribes to. -/
inductive MarketEvent where
  | OrderCancelled
  | BuyOrderCreated
  | SellOrderCreated
  | OrderFilled
  | BuyOrderCompleted
  | SellOrderCompleted
deriving DecidableEq

/-- The four callbacks a `SourceInfoEventForwarder` constructed in `__init__`
can wrap. -/
inductive HandlerKind where
  | canceledHandler
  | createdHandler
  | filledHandler
  | completedHandler
deriving DecidableEq

/-- Forwarder `self._cancel_order_forwarder`, wrapping
`process_order_canceled_event`. -/
def cancel_order_forwarder : HandlerKind := HandlerKind.canceledHandler

/-- Forwarder `self._create_buy_order_forwarder`, wrapping
`process_order_created_event`. -/
def create_buy_order_forwarder : HandlerKind := HandlerKind.createdHandler

/-- Forwarder `self._create_sell_order_forwarder`, wrapping
`process_order_created_event`. -/
def create_sell_order_forwarder : HandlerKind := HandlerKind.createdHandler

/-- Forwarder `self._fill_order_forwarder`, wrapping
`process_order_filled_event`. -/
def fill_order_forwarder : HandlerKind := HandlerKind.filledHandler

/-- Forwarder `self._complete_buy_order_forwarder`, wrapping
`process_order_completed_event`. -/
def complete_buy_order_forwarder : HandlerKind := HandlerKind.completedHandler

/-- Forwarder `self._complete_sell_order_forwarder`, wrapping
`process_order_completed_event`. -/
def complete_sell_order_forwarder : HandlerKind := HandlerKind.completedHandler

/-- The `self._event_pairs` list built in `__init__`, with each entry's
forwarder resolved to the callback it wraps, line for line as in the source
(`SellOrderCreated` is paired with `self._complete_buy_order_forwarder` and
`OrderFilled` with `self._complete_sell_order_forwarder` there). -/
def event_pairs : List (MarketEvent × HandlerKind) :=
  [(MarketEvent.OrderCancelled, cancel_order_forwarder),
   (MarketEvent.BuyOrderCreated, create_buy_order_forwarder),
   (MarketEvent.SellOrderCreated, complete_buy_order_forwarder),
   (MarketEvent.OrderFilled, complete_sell_order_forwarder),
   (MarketEvent.BuyOrderCompleted, complete_buy_order_forwarder),
   (MarketEvent.SellOrderCompleted, complete_sell_order_forwarder)]

/-- The handlers registered for a given event kind by `register_events`. -/
def registered_handlers (m : MarketEvent) : List HandlerKind :=
  (event_pairs.filter (fun p => p.1 = m)).map Prod.snd

/-- A concrete LONG position configuration matching the spec's happy-path
example: entry 100, amount 1, stop-loss 2%, take-profit 5%, time limit 3600
starting at time 0. -/
def sampleConfig : PositionConfig :=
  { exchange := "binance"
    trading_pair := "ETH-USDT"
    side := PositionSide.LONG
    amount := 1
    entry_price := some 100
    order_type := OrderType.LIMIT
    stop_loss := 1/50
    take_profit := 1/20
    time_limit := 3600
    timestamp := 0 }

/-- A freshly constructed executor for `sampleConfig`. -/
def startExecutor : PositionExecutor := mkExecutor sampleConfig

/-- An executor for `sampleConfig` whose entry order has been submitted and
acknowledged: status `ORDER_PLACED`, entry slot bound to order id `E`. -/
def placedExecutor : PositionExecutor :=
  { mkExecutor sampleConfig with
    status := PositionExecutorStatus.ORDER_PLACED
    open_order := { order_id := some "E"
                    order := some { current_state := OrderState.OPEN
                                    average_executed_price := 0
                                    executed_amount_base := 0 } } }

/-- A control tick at time 5, long before `end_time = 3600`. -/
def earlyTick : TickEnv :=
  { current_timestamp := 5, mid_price := 100, next_order_id := fun _ => "X" }

/-- A control tick at time 4000, after `end_time = 3600`. -/
def lateTick : TickEnv :=
  { current_timestamp := 4000, mid_price := 100, next_order_id := fun _ => "X" }

/-- The record `get_order` returns when the entry order's created event is
processed. -/
def entryCreatedRecord : InFlightOrder :=
  { current_state := OrderState.OPEN
    average_executed_price := 100
    executed_amount_base := 1 }

/-- The first control tick: time 1, mid price 100; the strategy returns order
id `E` for the entry placement. -/
def firstTick : TickEnv :=
  { current_timestamp := 1, mid_price := 100, next_order_id := fun _ => "E" }

/-- A tick at time 3 with the mid price at 97, below the stop-loss price 98:
the strategy returns `TP` for the take-profit placement and `SL` for the
stop-loss placement. -/
def activeTick : TickEnv :=
  { current_timestamp := 3
    mid_price := 97
    next_order_id := fun s =>
      match s with
      | Slot.takeProfitSlot => "TP"
      | Slot.stopLossSlot => "SL"
      | _ => "X" }

/-- An ordinary lifecycle prefix followed by the entry order's completed
event arriving after the stop-loss placement: tick (entry placed), entry
created, entry filled, tick (take-profit and stop-loss placed), entry
completed. -/
def c2Inputs : List Input :=
  [Input.tick firstTick,
   Input.createdEvent { order_id := "E", timestamp := 1 } (some entryCreatedRecord),
   Input.filledEvent { order_id := "E", timestamp := 2 },
   Input.tick activeTick,
   Input.completedEvent { order_id := "E", timestamp := 4 }]

/-- A lifecycle in which the stop-loss completes before the take-profit's
created event ever arrives: tick (entry placed), entry created, entry filled,
tick (take-profit and stop-loss placed), stop-loss completed. -/
def c9Inputs : List Input :=
  [Input.tick firstTick,
   Input.createdEvent { order_id := "E", timestamp := 1 } (some entryCreatedRecord),
   Input.filledEvent { order_id := "E", timestamp := 2 },
   Input.tick activeTick,
   Input.completedEvent { order_id := "SL", timestamp := 4 }]

/-- An executor for `sampleConfig` whose entry order was cancelled at its
time limit. -/
def canceledExecutor : PositionExecutor :=
  { mkExecutor sampleConfig with
    status := PositionExecutorStatus.CANCELED_BY_TIME_LIMIT
    open_order := { order_id := some "E", order := none }
    close_timestamp := some 3601 }

/-- A take-profit order record that is completely filled. -/
def filledTpRecord : InFlightOrder :=
  { current_state := OrderState.FILLED
    average_executed_price := 105
    executed_amount_base := 1 }

/-- A take-profit order record whose cancellation has been confirmed. -/
def cancelledTpRecord : InFlightOrder :=
  { current_state := OrderState.CANCELED
    average_executed_price := 0
    executed_amount_base := 0 }

/-- An executor closed by stop loss whose take-profit order record is bound
and completely filled. -/
def filledTakeProfitExecutor : PositionExecutor :=
  { mkExecutor sampleConfig with
    status := PositionExecutorStatus.CLOSED_BY_STOP_LOSS
    open_order := { order_id := some "E", order := some entryCreatedRecord }
    take_profit_order := { order_id := some "TP", order := some filledTpRecord }
    stop_loss_order := { order_id := some "SL"
                         order := some { current_state := OrderState.FILLED
                                         average_executed_price := 97
                                         executed_amount_base := 1 } }
    close_timestamp := some 4 }

/-- An executor closed by time limit whose take-profit order record is bound
and already cancelled. -/
def cancelledTakeProfitExecutor : PositionExecutor :=
  { mkExecutor sampleConfig with
    status := PositionExecutorStatus.CLOSED_BY_TIME_LIMIT
    open_order := { order_id := some "E", order := some entryCreatedRecord }
    take_profit_order := { order_id := some "TP", order := some cancelledTpRecord }
    time_limit_order := { order_id := some "TL"
                          order := some { current_state := OrderState.FILLED
                                          average_executed_price := 99
                                          executed_amount_base := 1 } }
    close_timestamp := some 3700 }

/-- An executor closed by stop loss with both the entry and the stop-loss
order records bound: entry executed at 100, stop-loss executed at 97. -/
def closedBySLExecutor : PositionExecutor :=
  { mkExecutor sampleConfig with
    status := PositionExecutorStatus.CLOSED_BY_STOP_LOSS
    open_order := { order_id := some "E", order := some entryCreatedRecord }
    take_profit_order := { order_id := some "TP", order := none }
    stop_loss_order := { order_id := some "SL"
                         order := some { current_state := OrderState.FILLED
                                         average_executed_price := 97
                                         executed_amount_base := 1 } }
    close_timestamp := some 4 }

/-- A venue event whose order id matches none of `placedExecutor`'s slots. -/
def unknownEvent : OrderEvent := { order_id := "ZZZ", timestamp := 9 }
/-- Helper: `control_open_order` never touches a slot whose order id is
truthy, and never issues a placement for it. -/
theorem control_open_order_keeps (s : Slot) (e : PositionExecutor) (env : TickEnv)
    (h : strTruthy (slotOrderId e s) = true) :
    slotOrderId (control_open_order e env).exec s = slotOrderId e s ∧
    ∀ a ∈ (control_open_order e env).actions, a.isPlaceFor s = false := by
  unfold control_open_order
  split
  · exact ⟨rfl, by simp⟩
  · rename_i hg
    have hs : s ≠ Slot.entrySlot := by
      intro hseq
      subst hseq
      exact hg (by simpa [slotOrderId] using h)
    cases hep : entry_price e env.mid_price <;> cases s <;>
      simp_all [slotOrderId, Request.isPlaceFor]

/-- Helper: `control_cancel_order_by_time_limit` issues no placements and
changes no slot. -/
theorem control_cancel_keeps (s : Slot) (e : PositionExecutor) (env : TickEnv) :
    slotOrderId (control_cancel_order_by_time_limit e env).exec s = slotOrderId e s ∧
    ∀ a ∈ (control_cancel_order_by_time_limit e env).actions, a.isPlaceFor s = false := by
  unfold control_cancel_order_by_time_limit
  split <;> simp [Request.isPlaceFor]

/-- Helper: `control_take_profit` never touches a slot whose order id is
truthy, and never issues a placement for it. -/
theorem control_take_profit_keeps (s : Slot) (e : PositionExecutor) (env : TickEnv)
    (h : strTruthy (slotOrderId e s) = true) :
    slotOrderId (control_take_profit e env).exec s = slotOrderId e s ∧
    ∀ a ∈ (control_take_profit e env).actions, a.isPlaceFor s = false := by
  unfold control_take_profit
  split
  · exact ⟨rfl, by simp⟩
  · rename_i hg
    have hs : s ≠ Slot.takeProfitSlot := by
      intro hseq
      subst hseq
      exact hg (by simpa [slotOrderId] using h)
    cases ho : e.open_order.order <;>
      cases htp : take_profit_price e env.mid_price <;>
      cases s <;>
      simp_all [slotOrderId, Request.isPlaceFor]

/-- Helper: `control_stop_loss` never touches a slot whose order id is
truthy, and never issues a placement for it. -/
theorem control_stop_loss_keeps (s : Slot) (e : PositionExecutor) (env : TickEnv)
    (h : strTruthy (slotOrderId e s) = true) :
    slotOrderId (control_stop_loss e env).exec s = slotOrderId e s ∧
    ∀ a ∈ (control_stop_loss e env).actions, a.isPlaceFor s = false := by
  unfold control_stop_loss
  cases hsl : stop_loss_price e env.mid_price with
  | error u => simp [hsl]
  | ok slp =>
    simp only [hsl]
    split
    · split
      · exact ⟨rfl, by simp⟩
      · rename_i hg
        have hs : s ≠ Slot.stopLossSlot := by
          intro hseq
          subst hseq
          exact hg (by simpa [slotOrderId] using h)
        cases ho : e.open_order.order <;> cases s <;>
          simp_all [slotOrderId, Request.isPlaceFor]
    · exact ⟨rfl, by simp⟩

/-- Helper: `control_time_limit` never touches a slot whose order id is
truthy, and never issues a placement for it. -/
theorem control_time_limit_keeps (s : Slot) (e : PositionExecutor) (env : TickEnv)
    (h : strTruthy (slotOrderId e s) = true) :
    slotOrderId (control_time_limit e env).exec s = slotOrderId e s ∧
    ∀ a ∈ (control_time_limit e env).actions, a.isPlaceFor s = false := by
  unfold control_time_limit
  split
  · split
    · exact ⟨rfl, by simp⟩
    · rename_i hexp hg
      have hs : s ≠ Slot.timeLimitSlot := by
        intro hseq
        subst hseq
        exact hg (by simpa [slotOrderId] using h)
      cases ho : e.open_order.order <;> cases s <;>
        simp_all [slotOrderId, Request.isPlaceFor]
  · exact ⟨rfl, by simp⟩

/-- Helper: sequential composition preserves a kept slot when both halves
do. -/
theorem andThen_keeps (s : Slot) (e : PositionExecutor) (r : StepResult)
    (f : PositionExecutor → StepResult)
    (hr : slotOrderId r.exec s = slotOrderId e s ∧
          ∀ a ∈ r.actions, a.isPlaceFor s = false)
    (hf : strTruthy (slotOrderId r.exec s) = true →
          slotOrderId (f r.exec).exec s = slotOrderId r.exec s ∧
          ∀ a ∈ (f r.exec).actions, a.isPlaceFor s = false)
    (ht : strTruthy (slotOrderId e s) = true) :
    slotOrderId (andThen r f).exec s = slotOrderId e s ∧
    ∀ a ∈ (andThen r f).actions, a.isPlaceFor s = false := by
  unfold andThen
  cases herr : r.errored
  · have htr : strTruthy (slotOrderId r.exec s) = true := by rw [hr.1]; exact ht
    obtain ⟨hf1, hf2⟩ := hf htr
    simp only [herr, Bool.false_eq_true, if_false]
    refine ⟨by rw [hf1, hr.1], ?_⟩
    intro a ha
    rcases List.mem_append.mp ha with hmem | hmem
    · exact hr.2 a hmem
    · exact hf2 a hmem
  · simp only [herr, if_true]
    exact hr

/-- Helper: one full control tick preserves any slot whose order id is
truthy and issues no placement for it. -/
theorem control_position_keeps (s : Slot) (e : PositionExecutor) (env : TickEnv)
    (h : strTruthy (slotOrderId e s) = true) :
    slotOrderId (control_position e env).exec s = slotOrderId e s ∧
    ∀ a ∈ (control_position e env).actions, a.isPlaceFor s = false := by
  unfold control_position
  cases hst : e.status with
  | NOT_STARTED => exact control_open_order_keeps s e env h
  | ORDER_PLACED => exact control_cancel_keeps s e env
  | ACTIVE_POSITION =>
    refine andThen_keeps s e _ _ (control_take_profit_keeps s e env h) (fun ht2 => ?_) h
    exact andThen_keeps s _ _ _ (control_stop_loss_keeps s _ env ht2)
      (fun ht3 => control_time_limit_keeps s _ env ht3) ht2
  | CLOSE_PLACED => exact ⟨rfl, by simp⟩
  | CLOSED_BY_TAKE_PROFIT => exact ⟨rfl, by simp⟩
  | CLOSED_BY_STOP_LOSS => exact ⟨rfl, by simp⟩
  | CLOSED_BY_TIME_LIMIT => exact ⟨rfl, by simp⟩
  | CANCELED_BY_TIME_LIMIT => exact ⟨rfl, by simp⟩

/-- Claim C1: in `ORDER_PLACED` the control loop should cancel the entry
order exactly when the current timestamp has reached `end_time`. The source's
comparison `self.end_time >= self._strategy.current_timestamp` is reversed:
at time 5, strictly before `end_time = 3600`, the tick issues the
cancellation, and at time 4000, past `end_time`, it issues nothing. -/
theorem c1_cancel_by_time_limit_reversed :
    earlyTick.current_timestamp < end_time placedExecutor ∧
    control_position placedExecutor earlyTick =
      { exec := placedExecutor
        actions := [Request.cancelOrder "ETH-USDT" (some "E")]
        errored := false } ∧
    end_time placedExecutor < lateTick.current_timestamp ∧
    control_position placedExecutor lateTick =
      { exec := placedExecutor, actions := [], errored := false } := by
  norm_num +decide [control_position, control_cancel_order_by_time_limit, end_time,
    placedExecutor, mkExecutor, sampleConfig, earlyTick, lateTick]

/-- Claim C2: statuses should be entered at most once, but on `c2Inputs` the
executor enters `ACTIVE_POSITION` at the entry fill, moves to `CLOSE_PLACED`
when the stop-loss order is placed, and then re-enters `ACTIVE_POSITION` when
the entry order's completed event arrives (the completed handler sets the
status unconditionally): `ACTIVE_POSITION` is entered twice. -/
theorem c2_active_position_entered_twice :
    (runStates (mkExecutor sampleConfig) c2Inputs).map PositionExecutor.status =
      [PositionExecutorStatus.NOT_STARTED,
       PositionExecutorStatus.ORDER_PLACED,
       PositionExecutorStatus.ACTIVE_POSITION,
       PositionExecutorStatus.CLOSE_PLACED,
       PositionExecutorStatus.ACTIVE_POSITION] ∧
    countEntries PositionExecutorStatus.ACTIVE_POSITION PositionExecutorStatus.NOT_STARTED
      ((runStates (mkExecutor sampleConfig) c2Inputs).map PositionExecutor.status) = 2 := by
  norm_num +decide [runStates, step, control_position, control_open_order, control_take_profit,
    control_stop_loss, control_time_limit, control_cancel_order_by_time_limit, andThen,
    process_order_created_event, process_order_filled_event, process_order_completed_event,
    process_order_canceled_event, entry_price, stop_loss_price, take_profit_price,
    opposite_side, strTruthy, end_time, remove_take_profit, mkExecutor, TrackedOrder.empty,
    sampleConfig, firstTick, activeTick, entryCreatedRecord, c2Inputs, countEntries]

/-- Claim C3: the `_event_pairs` table routes `SellOrderCreated` and
`OrderFilled` to the order-completed callback, while the forwarders that wrap
the order-created and order-filled callbacks (`_create_sell_order_forwarder`,
`_fill_order_forwarder`) are built but never registered. -/
theorem c3_event_wiring_misroutes :
    registered_handlers MarketEvent.SellOrderCreated = [HandlerKind.completedHandler] ∧
    registered_handlers MarketEvent.OrderFilled = [HandlerKind.completedHandler] ∧
    create_sell_order_forwarder = HandlerKind.createdHandler ∧
    fill_order_forwarder = HandlerKind.filledHandler ∧
    HandlerKind.completedHandler ≠ HandlerKind.createdHandler ∧
    HandlerKind.completedHandler ≠ HandlerKind.filledHandler := by
  decide

/-- Claim C4 counterexample: `filledTakeProfitExecutor` is closed by
stop-loss and its take-profit order record is bound and filled (a terminal
order state), yet `clean_executor` still issues a cancellation request for
it: the skip guard checks only cancelled / pending-cancel / failed, never
filled. -/
theorem c4_counterexample_filled_take_profit_cancelled :
    filledTakeProfitExecutor.status = PositionExecutorStatus.CLOSED_BY_STOP_LOSS ∧
    filledTakeProfitExecutor.take_profit_order.order.map InFlightOrder.is_filled =
      some true ∧
    clean_executor filledTakeProfitExecutor =
      { exec := filledTakeProfitExecutor
        actions := [Request.cancelOrder "ETH-USDT" (some "TP")]
        errored := false } := by
  norm_num +decide [clean_executor, remove_take_profit, filledTakeProfitExecutor,
    mkExecutor, sampleConfig, entryCreatedRecord, filledTpRecord, InFlightOrder.is_filled,
    InFlightOrder.is_cancelled, InFlightOrder.is_pending_cancel_confirmation,
    InFlightOrder.is_failure, TrackedOrder.empty]

/-- Claim C4 (amended): when the position is closed by stop-loss or
time-limit and the take-profit order record is bound, no cancellation is
issued iff the record is cancelled / pending-cancel / failed; in every other
record state — including filled — the cancellation request is issued. -/
theorem c4_cleanup_cancels_unless_cancelled_or_failed (e : PositionExecutor)
    (o : InFlightOrder)
    (hst : e.status = PositionExecutorStatus.CLOSED_BY_TIME_LIMIT ∨
           e.status = PositionExecutorStatus.CLOSED_BY_STOP_LOSS)
    (ho : e.take_profit_order.order = some o) :
    ((o.is_cancelled || o.is_pending_cancel_confirmation || o.is_failure) = true →
      clean_executor e = { exec := e, actions := [], errored := false }) ∧
    ((o.is_cancelled || o.is_pending_cancel_confirmation || o.is_failure) = false →
      clean_executor e =
        { exec := e, actions := remove_take_profit e, errored := false }) := by
  constructor
  · intro hflag
    rcases hst with hs | hs <;> simp [clean_executor, hs, ho, hflag]
  · intro hflag
    rcases hst with hs | hs <;> simp [clean_executor, hs, ho, hflag]

/-- Witness for the amended claim C4 at `cancelledTakeProfitExecutor`, whose
take-profit record is already cancelled. -/
theorem c4_witness :
    ((cancelledTpRecord.is_cancelled || cancelledTpRecord.is_pending_cancel_confirmation ||
        cancelledTpRecord.is_failure) = true →
      clean_executor cancelledTakeProfitExecutor =
        { exec := cancelledTakeProfitExecutor, actions := [], errored := false }) ∧
    ((cancelledTpRecord.is_cancelled || cancelledTpRecord.is_pending_cancel_confirmation ||
        cancelledTpRecord.is_failure) = false →
      clean_executor cancelledTakeProfitExecutor =
        { exec := cancelledTakeProfitExecutor
          actions := remove_take_profit cancelledTakeProfitExecutor
          errored := false }) :=
  c4_cleanup_cancels_unless_cancelled_or_failed cancelledTakeProfitExecutor
    cancelledTpRecord (Or.inl rfl) rfl

/-- Claim C5: for every executor state in which a slot's order id is already
set (a truthy id, exactly as the Python guards `if not ... order_id` test
it), any number of further control-loop invocations issues no placement
request for that slot and leaves that slot's order id unchanged. -/
theorem c5_control_loop_idempotent_per_slot (s : Slot) (e : PositionExecutor)
    (envs : List TickEnv) (h : strTruthy (slotOrderId e s) = true) :
    slotOrderId (runTicks e envs).1 s = slotOrderId e s ∧
    ∀ a ∈ (runTicks e envs).2, a.isPlaceFor s = false := by
  induction envs generalizing e with
  | nil => simp [runTicks]
  | cons env rest ih =>
    obtain ⟨h1, h2⟩ := control_position_keeps s e env h
    have ht2 : strTruthy (slotOrderId (control_position e env).exec s) = true := by
      rw [h1]
      exact h
    obtain ⟨ih1, ih2⟩ := ih (control_position e env).exec ht2
    refine ⟨?_, ?_⟩
    · show slotOrderId (runTicks (control_position e env).exec rest).1 s = slotOrderId e s
      rw [ih1, h1]
    · show ∀ a ∈ (control_position e env).actions ++
          (runTicks (control_position e env).exec rest).2, a.isPlaceFor s = false
      intro a ha
      rcases List.mem_append.mp ha with hmem | hmem
      · exact h2 a hmem
      · exact ih2 a hmem

/-- Witness for claim C5: `placedExecutor` has entry order id `E`; a further
tick leaves the entry slot unchanged and issues no entry placement. -/
theorem c5_witness :
    slotOrderId (runTicks placedExecutor [earlyTick]).1 Slot.entrySlot =
      slotOrderId placedExecutor Slot.entrySlot ∧
    ∀ a ∈ (runTicks placedExecutor [earlyTick]).2,
      a.isPlaceFor Slot.entrySlot = false :=
  c5_control_loop_idempotent_per_slot Slot.entrySlot placedExecutor [earlyTick] (by decide)

/-- Claim C6: whenever `entry_price` yields a positive value and the
configured stop-loss and take-profit fractions lie in (0,1), the LONG
stop-loss price `entry * (1 - stop_loss)` is below the entry and the LONG
take-profit price `entry * (1 + take_profit)` is above it; for SHORT the
formulas and inequalities are mirrored. -/
theorem c6_exit_price_symmetry (e : PositionExecutor) (mid ep : ℚ)
    (hep : entry_price e mid = Except.ok ep) (hpos : 0 < ep)
    (hsl0 : 0 < e.position_config.stop_loss)
    (hsl1 : e.position_config.stop_loss < 1)
    (htp0 : 0 < e.position_config.take_profit)
    (htp1 : e.position_config.take_profit < 1) :
    (e.position_config.side = PositionSide.LONG →
      stop_loss_price e mid = Except.ok (ep * (1 - e.position_config.stop_loss)) ∧
      ep * (1 - e.position_config.stop_loss) < ep ∧
      take_profit_price e mid = Except.ok (ep * (1 + e.position_config.take_profit)) ∧
      ep < ep * (1 + e.position_config.take_profit)) ∧
    (e.position_config.side = PositionSide.SHORT →
      stop_loss_price e mid = Except.ok (ep * (1 + e.position_config.stop_loss)) ∧
      ep < ep * (1 + e.position_config.stop_loss) ∧
      take_profit_price e mid = Except.ok (ep * (1 - e.position_config.take_profit)) ∧
      ep * (1 - e.position_config.take_profit) < ep) := by
  constructor
  · intro hside
    refine ⟨by simp [stop_loss_price, hep, hside], by nlinarith,
      by simp [take_profit_price, hep, hside], by nlinarith⟩
  · intro hside
    refine ⟨by simp [stop_loss_price, hep, hside], by nlinarith,
      by simp [take_profit_price, hep, hside], by nlinarith⟩

/-- Witness for claim C6 at `startExecutor` (LONG, entry hint 100, stop-loss
1/50, take-profit 1/20) with mid price 90. -/
theorem c6_witness :
    (startExecutor.position_config.side = PositionSide.LONG →
      stop_loss_price startExecutor 90 =
        Except.ok (100 * (1 - startExecutor.position_config.stop_loss)) ∧
      100 * (1 - startExecutor.position_config.stop_loss) < 100 ∧
      take_profit_price startExecutor 90 =
        Except.ok (100 * (1 + startExecutor.position_config.take_profit)) ∧
      (100:ℚ) < 100 * (1 + startExecutor.position_config.take_profit)) ∧
    (startExecutor.position_config.side = PositionSide.SHORT →
      stop_loss_price startExecutor 90 =
        Except.ok (100 * (1 + startExecutor.position_config.stop_loss)) ∧
      (100:ℚ) < 100 * (1 + startExecutor.position_config.stop_loss) ∧
      take_profit_price startExecutor 90 =
        Except.ok (100 * (1 - startExecutor.position_config.take_profit)) ∧
      100 * (1 - startExecutor.position_config.take_profit) < 100) :=
  c6_exit_price_symmetry startExecutor 90 100
    (by norm_num [entry_price, startExecutor, mkExecutor, sampleConfig, TrackedOrder.empty])
    (by norm_num)
    (by norm_num [startExecutor, mkExecutor, sampleConfig])
    (by norm_num [startExecutor, mkExecutor, sampleConfig])
    (by norm_num [startExecutor, mkExecutor, sampleConfig])
    (by norm_num [startExecutor, mkExecutor, sampleConfig])

/-- Claim C7: for a position in a `CLOSED_BY_*` status with close price `cp`
and positive entry price `ep`, `pnl` is `(cp - ep)/ep` for LONG and
`(ep - cp)/ep` for SHORT, and it is positive when the close price beats the
entry on the position's side. -/
theorem c7_pnl_sign (e : PositionExecutor) (mid cp ep : ℚ)
    (hst : e.status ∈ [PositionExecutorStatus.CLOSED_BY_TIME_LIMIT,
                       PositionExecutorStatus.CLOSED_BY_STOP_LOSS,
                       PositionExecutorStatus.CLOSED_BY_TAKE_PROFIT])
    (hcp : close_price e = Except.ok (some cp))
    (hep : entry_price e mid = Except.ok ep)
    (hpos : 0 < ep) :
    (e.position_config.side = PositionSide.LONG →
      pnl e mid = Except.ok ((cp - ep) / ep) ∧ (ep < cp → 0 < (cp - ep) / ep)) ∧
    (e.position_config.side = PositionSide.SHORT →
      pnl e mid = Except.ok ((ep - cp) / ep) ∧ (cp < ep → 0 < (ep - cp) / ep)) := by
  have hne : ep ≠ 0 := ne_of_gt hpos
  constructor
  · intro hside
    refine ⟨by simp [pnl, hst, hcp, hep, hne, hside], fun hlt => ?_⟩
    exact div_pos (by linarith) hpos
  · intro hside
    refine ⟨by simp [pnl, hst, hcp, hep, hne, hside], fun hlt => ?_⟩
    exact div_pos (by linarith) hpos

/-- Witness for claim C7 at `closedBySLExecutor` (LONG, entry executed at
100, stop-loss executed at 97): pnl is `(97 - 100)/100`. -/
theorem c7_witness :
    (closedBySLExecutor.position_config.side = PositionSide.LONG →
      pnl closedBySLExecutor 97 = Except.ok (((97:ℚ) - 100) / 100) ∧
      ((100:ℚ) < 97 → 0 < ((97:ℚ) - 100) / 100)) ∧
    (closedBySLExecutor.position_config.side = PositionSide.SHORT →
      pnl closedBySLExecutor 97 = Except.ok (((100:ℚ) - 97) / 100) ∧
      ((97:ℚ) < 100 → 0 < ((100:ℚ) - 97) / 100)) :=
  c7_pnl_sign closedBySLExecutor 97 97 100
    (by decide)
    (by norm_num +decide [close_price, closedBySLExecutor, mkExecutor, sampleConfig,
      TrackedOrder.empty])
    (by norm_num +decide [entry_price, closedBySLExecutor, mkExecutor, sampleConfig,
      entryCreatedRecord, TrackedOrder.empty])
    (by norm_num)

/-- Claim C8: a venue event whose order id matches none of the four slots
leaves the executor state unchanged through every handler and issues no
request. -/
theorem c8_unknown_event_ignored (e : PositionExecutor) (ev : OrderEvent)
    (fetched : Option InFlightOrder)
    (h1 : e.open_order.order_id ≠ some ev.order_id)
    (h2 : e.take_profit_order.order_id ≠ some ev.order_id)
    (h3 : e.stop_loss_order.order_id ≠ some ev.order_id)
    (h4 : e.time_limit_order.order_id ≠ some ev.order_id) :
    process_order_completed_event e ev = { exec := e, actions := [], errored := false } ∧
    process_order_created_event e ev fetched =
      { exec := e, actions := [], errored := false } ∧
    process_order_canceled_event e ev = { exec := e, actions := [], errored := false } ∧
    process_order_filled_event e ev = { exec := e, actions := [], errored := false } := by
  refine ⟨?_, ?_, ?_, ?_⟩ <;>
    simp [process_order_completed_event, process_order_created_event,
      process_order_canceled_event, process_order_filled_event, h1, h2, h3, h4]

/-- Witness for claim C8 at `placedExecutor` and the unmatched event
`unknownEvent`. -/
theorem c8_witness :
    process_order_completed_event placedExecutor unknownEvent =
      { exec := placedExecutor, actions := [], errored := false } ∧
    process_order_created_event placedExecutor unknownEvent none =
      { exec := placedExecutor, actions := [], errored := false } ∧
    process_order_canceled_event placedExecutor unknownEvent =
      { exec := placedExecutor, actions := [], errored := false } ∧
    process_order_filled_event placedExecutor unknownEvent =
      { exec := placedExecutor, actions := [], errored := false } :=
  c8_unknown_event_ignored placedExecutor unknownEvent none
    (by decide) (by decide) (by decide) (by decide)

/-- Claim C9: the state reached by `c9Inputs` is `CLOSED_BY_STOP_LOSS` with a
take-profit order id but no bound take-profit order record, and on it
`clean_executor` raises (dereferencing the absent record in its log line)
instead of skipping cleanup. -/
theorem c9_clean_executor_raises_on_unbound_take_profit :
    (runExec (mkExecutor sampleConfig) c9Inputs).status =
      PositionExecutorStatus.CLOSED_BY_STOP_LOSS ∧
    (runExec (mkExecutor sampleConfig) c9Inputs).take_profit_order.order_id = some "TP" ∧
    (runExec (mkExecutor sampleConfig) c9Inputs).take_profit_order.order = none ∧
    clean_executor (runExec (mkExecutor sampleConfig) c9Inputs) =
      { exec := runExec (mkExecutor sampleConfig) c9Inputs
        actions := []
        errored := true } := by
  norm_num +decide [runExec, step, control_position, control_open_order, control_take_profit,
    control_stop_loss, control_time_limit, control_cancel_order_by_time_limit, andThen,
    process_order_created_event, process_order_filled_event, process_order_completed_event,
    process_order_canceled_event, entry_price, stop_loss_price, take_profit_price,
    opposite_side, strTruthy, end_time, remove_take_profit, mkExecutor, TrackedOrder.empty,
    sampleConfig, firstTick, activeTick, entryCreatedRecord, c9Inputs, clean_executor]

/-- Claim C10: in `CANCELED_BY_TIME_LIMIT`, `is_closed` is true while
`close_price` is `None` and `pnl` is 0. -/
theorem c10_canceled_is_closed_without_close_price (e : PositionExecutor) (mid : ℚ)
    (h : e.status = PositionExecutorStatus.CANCELED_BY_TIME_LIMIT) :
    is_closed e = true ∧ close_price e = Except.ok none ∧ pnl e mid = Except.ok 0 := by
  simp [is_closed, close_price, pnl, h]

/-- Witness for claim C10 at the concrete state `canceledExecutor`. -/
theorem c10_witness :
    is_closed canceledExecutor = true ∧
    close_price canceledExecutor = Except.ok none ∧
    pnl canceledExecutor 100 = Except.ok 0 :=
  c10_canceled_is_closed_without_close_price canceledExecutor 100 (by decide)
